import Mathlib

/-!
Shallow embedding of the `yildizpay/http-adapter` dispatch pipeline and
resilience layer, translated from the TypeScript sources:

* `src/common/enums/http-method.enum.ts`   — `HttpMethod`
* `src/models/request-options.ts`          — `RequestOptions`
* `src/models/request.ts`                  — `Request` and its mutators
* `src/models/response.ts`                 — `Response` and `Response.create`
* `src/contracts/http-interceptor.contract.ts` — `HttpInterceptor`
* `src/contracts/retry-policy.contract.ts` — `RetryPolicy`
* `src/resilience/retry-executor.ts`       — `RetryExecutor.execute`
* `src/resilience/policies/exponential-backoff.retry-policy.ts`
                                           — `ExponentialBackoffPolicy`
* `src/core/http.adapter.ts`               — `HttpAdapter.dispatch`

Modelling conventions.  Asynchronous functions that may throw become pure
functions into `Except ε`.  JavaScript object mutation (`this.body[key] = v`,
`setTimestamp`) becomes functional record update.  `Math.random()` becomes an
explicit parameter ranging over `[0, 1)`.  UUID generation in the `Request`
constructor becomes an explicit `freshUuid` argument.  Wall-clock time becomes
an explicit `Nat` argument.  String-keyed JavaScript objects become
association lists; the object-update semantics (overwrite in place, append new
keys at the end) is `setKey` below.  The `RetryExecutor` is instrumented: in
addition to the final outcome it records how many times the operation was
invoked and the exact argument lists passed to `policy.retryOn` and
`policy.backoffMs`, which is what the observable call counts of the source
amount to.  URL resolution (`new URL(endpoint, baseUrl)`) is abstracted to
string concatenation; no verified property depends on URL text semantics.
-/

deriving instance DecidableEq for Except

namespace HA

/-- HTTP methods, from `src/common/enums/http-method.enum.ts`. -/
inductive HttpMethod where
  | GET
  | POST
  | PUT
  | DELETE
  | PATCH
  | HEAD
  | OPTIONS
deriving DecidableEq, Repr

/-- JavaScript-object update semantics for a string-keyed association list:
if the key is present every binding of that key is overwritten in place,
otherwise the new binding is appended at the end. -/
def setKey {α : Type} (m : List (String × α)) (k : String) (v : α) :
    List (String × α) :=
  if m.any (fun p => p.1 == k) then
    m.map (fun p => if p.1 == k then (k, v) else p)
  else
    m ++ [(k, v)]

/-- Lookup of a key in a string-keyed association list (first binding wins,
as JavaScript objects have at most one binding per key). -/
def getKey {α : Type} (m : List (String × α)) (k : String) : Option α :=
  (m.find? (fun p => p.1 == k)).map Prod.snd

/-- Body values, a shallow model of the `HttpBody` value type from
`src/common/types/http.types.ts` (string, number, boolean or null entries). -/
inductive BodyVal where
  | str (s : String)
  | num (n : Int)
  | boolean (b : Bool)
  | null
deriving DecidableEq, Repr

/-- Per-request configuration, from `src/models/request-options.ts`. -/
structure RequestOptions where
  timeout : Nat := 10000
deriving DecidableEq, Repr

/-- The HTTP request model, from `src/models/request.ts`.  The correlation
identifier is generated in the constructor (`Request.make` below) and there is
no operation that changes it afterwards. -/
structure Request where
  baseUrl : String
  endpoint : String
  method : HttpMethod := .POST
  headers : List (String × String) := []
  queryParams : List (String × String) := []
  body : Option (List (String × BodyVal)) := none
  options : Option RequestOptions := none
  systemCorrelationId : String
  timestamp : Nat
deriving DecidableEq, Repr

/-- The `Request` constructor: `systemCorrelationId` is set to the freshly
generated UUID (modelled as the explicit `freshUuid` argument) and the
timestamp to the current time. -/
def Request.make (freshUuid : String) (now : Nat) (baseUrl endpoint : String)
    (method : HttpMethod := .POST) (headers : List (String × String) := [])
    (queryParams : List (String × String) := [])
    (body : Option (List (String × BodyVal)) := none) : Request :=
  { baseUrl := baseUrl, endpoint := endpoint, method := method,
    headers := headers, queryParams := queryParams, body := body,
    options := none, systemCorrelationId := freshUuid, timestamp := now }

/-- `Request.setTimestamp`, from `src/models/request.ts`. -/
def Request.setTimestamp (r : Request) (t : Nat) : Request :=
  { r with timestamp := t }

/-- `Request.addParam`, from `src/models/request.ts`: throws
`"Body is not defined"` when the body is null, otherwise sets the key in the
body mapping. -/
def Request.addParam (r : Request) (key : String) (value : BodyVal) :
    Except String Request :=
  match r.body with
  | none => .error "Body is not defined"
  | some b => .ok { r with body := some (setKey b key value) }

/-- `Request.addHeader`, from `src/models/request.ts`. -/
def Request.addHeader (r : Request) (key value : String) : Request :=
  { r with headers := setKey r.headers key value }

/-- `Request.addQueryParam`, from `src/models/request.ts`. -/
def Request.addQueryParam (r : Request) (key value : String) : Request :=
  { r with queryParams := setKey r.queryParams key value }

/-- The HTTP response model, from `src/models/response.ts`; `headers` is
`none` exactly when the source stores `null`. -/
structure Response (T : Type) where
  data : T
  status : Int
  headers : Option (List (String × String))
  systemCorrelationId : String
  timestamp : Nat
deriving DecidableEq, Repr

/-- `Response.create`, from `src/models/response.ts` (the constructor stamps
the creation time, modelled by the explicit `now` argument). -/
def Response.create {T : Type} (data : T) (status : Int)
    (headers : Option (List (String × String))) (systemCorrelationId : String)
    (now : Nat) : Response T :=
  { data := data, status := status, headers := headers,
    systemCorrelationId := systemCorrelationId, timestamp := now }

/-- The interceptor contract, from `src/contracts/http-interceptor.contract.ts`:
three asynchronous hooks, each of which may throw (the `Except.error` case).
`ε` is the type of JavaScript error values, `T` the response payload type. -/
structure HttpInterceptor (ε T : Type) where
  onRequest : Request → Except ε Request
  onResponse : Response T → Except ε (Response T)
  onError : ε → Request → Except ε ε

/-- The argument object handed to `httpClient.request` in
`HttpAdapter.dispatch` (an Axios request configuration). -/
structure AxiosRequestConfig where
  url : String
  method : HttpMethod
  data : Option (List (String × BodyVal))
  headers : List (String × String)
  timeout : Option Nat
deriving DecidableEq, Repr

/-- The transport result shape consumed by `HttpAdapter.dispatch`:
`headers = none` models Axios supplying no header object (the source's
`?? null` then stores `null`). -/
structure AxiosResponse (T : Type) where
  data : T
  status : Int
  headers : Option (List (String × String))
deriving DecidableEq, Repr

/-- Query-string rendering of the query-parameter mapping
(`URLSearchParams.toString`, with percent-encoding abstracted away). -/
def encodeQuery : List (String × String) → String
  | [] => ""
  | [(k, v)] => k ++ "=" ++ v
  | (k, v) :: p :: rest => k ++ "=" ++ v ++ "&" ++ encodeQuery (p :: rest)

/-- Final URL construction in `HttpAdapter.dispatch`: resolve the endpoint
against the base URL (abstracted to concatenation) and append the query
string only when it is non-empty, mirroring
`if (searchParams.toString()) url.search = ...`. -/
def buildUrl (r : Request) : String :=
  let qs := encodeQuery r.queryParams
  if qs = "" then r.baseUrl ++ r.endpoint
  else r.baseUrl ++ r.endpoint ++ "?" ++ qs

/-- The request-side interceptor loop of `HttpAdapter.dispatch`:
`for (const interceptor of this.interceptors) processedRequest = await
interceptor.onRequest(processedRequest)`.  A hook that throws aborts the
loop with that error. -/
def runOnRequest {ε T : Type} (inters : List (HttpInterceptor ε T))
    (req : Request) : Except ε Request :=
  match inters with
  | [] => .ok req
  | i :: rest =>
    match i.onRequest req with
    | .error e => .error e
    | .ok r => runOnRequest rest r

/-- The response-side interceptor loop of `HttpAdapter.dispatch`:
`for (const interceptor of this.interceptors) response = await
interceptor.onResponse(response)`. -/
def runOnResponse {ε T : Type} (inters : List (HttpInterceptor ε T))
    (resp : Response T) : Except ε (Response T) :=
  match inters with
  | [] => .ok resp
  | i :: rest =>
    match i.onResponse resp with
    | .error e => .error e
    | .ok r => runOnResponse rest r

/-- The error-side interceptor loop in the `catch` block of
`HttpAdapter.dispatch`: `propagatedError = await
interceptor.onError(propagatedError, processedRequest)`.  An `.ok` result is
the (possibly replaced) propagated error after the whole chain; an `.error`
result is a value thrown by some hook, which aborts the chain. -/
def runOnError {ε T : Type} (inters : List (HttpInterceptor ε T))
    (e : ε) (req : Request) : Except ε ε :=
  match inters with
  | [] => .ok e
  | i :: rest =>
    match i.onError e req with
    | .error thrown => .error thrown
    | .ok e2 => runOnError rest e2 req

/-- The Axios request configuration that `HttpAdapter.dispatch` builds from
the processed request: the URL from `buildUrl`, and method, body, headers and
per-request timeout read from the (just-timestamped) request. -/
def requestConfig (processedRequest : Request) (now : Nat) :
    AxiosRequestConfig :=
  let stamped := processedRequest.setTimestamp now
  { url := buildUrl processedRequest, method := stamped.method,
    data := stamped.body, headers := stamped.headers,
    timeout := stamped.options.map RequestOptions.timeout }

/-- The `try` block of `HttpAdapter.dispatch`, after the request-side
interceptor loop: build the URL, stamp the timestamp, invoke the transport,
construct the `Response` with the processed request's correlation identifier,
and run the response-side interceptor loop.  Any `.error` here is what the
`catch` block receives. -/
def tryPhase {ε T : Type} (inters : List (HttpInterceptor ε T))
    (transport : AxiosRequestConfig → Except ε (AxiosResponse T))
    (now : Nat) (processedRequest : Request) : Except ε (Response T) :=
  let stamped := processedRequest.setTimestamp now
  match transport (requestConfig processedRequest now) with
  | .error e => .error e
  | .ok axiosResponse =>
    runOnResponse inters
      (Response.create axiosResponse.data axiosResponse.status
        axiosResponse.headers stamped.systemCorrelationId now)

/-- `HttpAdapter.dispatch`, from `src/core/http.adapter.ts`.  Note the source
runs the `onRequest` loop before entering the `try` block, so an error thrown
by an `onRequest` hook propagates directly; errors arising inside the `try`
block (transport failure or a throwing `onResponse` hook) flow through the
`onError` chain, and the final (possibly replaced) error is thrown. -/
def HttpAdapter.dispatch {ε T : Type} (inters : List (HttpInterceptor ε T))
    (transport : AxiosRequestConfig → Except ε (AxiosResponse T))
    (now : Nat) (request : Request) : Except ε (Response T) :=
  match runOnRequest inters request with
  | .error e => .error e
  | .ok processedRequest =>
    match tryPhase inters transport now processedRequest with
    | .ok response => .ok response
    | .error err =>
      match runOnError inters err (processedRequest.setTimestamp now) with
      | .ok propagatedError => .error propagatedError
      | .error thrown => .error thrown

/-- The retry-policy contract, from `src/contracts/retry-policy.contract.ts`.
`maxAttempts` is an `Int` because the source accepts any JavaScript number
there.  `backoffMs` returns a duration in milliseconds. -/
structure RetryPolicy (ε : Type) where
  maxAttempts : Int
  retryOn : ε → Bool
  backoffMs : Int → ℚ

/-- Instrumented outcome of `RetryExecutor.execute`: the final result, how
many times the operation was invoked, and the exact argument sequences passed
to `policy.retryOn` and `policy.backoffMs`. -/
structure ExecTrace (ε α : Type) where
  result : Except ε α
  opCalls : Nat
  retryOnArgs : List ε
  backoffArgs : List Int
deriving DecidableEq, Repr

/-- The loop body of `RetryExecutor.execute`, from
`src/resilience/retry-executor.ts`, entered with the current `attempt`
counter; `k` counts the operation invocations already performed, so the
operation (which may behave differently per invocation) is modelled as a
function of the invocation index.  Mirrors: try the operation; on error,
throw if the policy refuses a retry, throw if `attempt >= maxAttempts`,
otherwise call `backoffMs(attempt)`, sleep, increment `attempt`, and loop. -/
def executeFrom {ε α : Type} (p : RetryPolicy ε) (op : Nat → Except ε α)
    (attempt : Int) (k : Nat) : ExecTrace ε α :=
  match op k with
  | .ok a => { result := .ok a, opCalls := 1, retryOnArgs := [],
               backoffArgs := [] }
  | .error err =>
    if h1 : p.retryOn err = false then
      { result := .error err, opCalls := 1, retryOnArgs := [err],
        backoffArgs := [] }
    else if h2 : p.maxAttempts ≤ attempt then
      { result := .error err, opCalls := 1, retryOnArgs := [err],
        backoffArgs := [] }
    else
      let t := executeFrom p op (attempt + 1) (k + 1)
      { result := t.result, opCalls := t.opCalls + 1,
        retryOnArgs := err :: t.retryOnArgs,
        backoffArgs := attempt :: t.backoffArgs }
termination_by (p.maxAttempts - attempt).toNat
decreasing_by omega

/-- `RetryExecutor.execute`: the attempt counter starts at 1. -/
def RetryExecutor.execute {ε α : Type} (p : RetryPolicy ε)
    (op : Nat → Except ε α) : ExecTrace ε α :=
  executeFrom p op 1 0

/-- Shape of the JavaScript error values inspected by
`ExponentialBackoffPolicy.retryOn`: `responseStatus` models the optional
chain `error?.response?.status` (with `none` for any shape in which no
numeric status is reachable) and `code` models `error?.code`. -/
structure JsError where
  responseStatus : Option Int := none
  code : Option String := none
deriving DecidableEq, Repr

/-- `ExponentialBackoffPolicy.retryOn`, from
`src/resilience/policies/exponential-backoff.retry-policy.ts`. -/
def ExponentialBackoffPolicy.retryOn (error : JsError) : Bool :=
  let status := error.responseStatus
  status == some 429 ||
  status == some 500 ||
  status == some 502 ||
  status == some 503 ||
  status == some 504 ||
  error.code == some "ECONNABORTED"

/-- `ExponentialBackoffPolicy.backoffMs`, from
`src/resilience/policies/exponential-backoff.retry-policy.ts`:
`2^attempt * 100` plus `Math.random() * 50`, with the `Math.random()` draw
modelled by the explicit parameter `rand` ranging over `[0, 1)`. -/
def ExponentialBackoffPolicy.backoffMs (attempt : Nat) (rand : ℚ) : ℚ :=
  let base : ℚ := 2 ^ attempt * 100
  let jitter : ℚ := rand * 50
  base + jitter

/-- Sequential request-hook chain in registration order: `ReqChain l r r2`
holds when passing `r` through the `onRequest` hooks of `l` left to right,
each hook receiving the previous hook's output and none of them throwing,
yields `r2`. -/
inductive ReqChain {ε T : Type} :
    List (HttpInterceptor ε T) → Request → Request → Prop where
  | nil (r : Request) : ReqChain [] r r
  | cons (i : HttpInterceptor ε T) (rest : List (HttpInterceptor ε T))
      (r r1 r2 : Request) : i.onRequest r = .ok r1 →
      ReqChain rest r1 r2 → ReqChain (i :: rest) r r2

/-- Sequential response-hook chain in registration order (same direction as
the request chain, not reversed): each hook receives the previous hook's
output. -/
inductive RespChain {ε T : Type} :
    List (HttpInterceptor ε T) → Response T → Response T → Prop where
  | nil (r : Response T) : RespChain [] r r
  | cons (i : HttpInterceptor ε T) (rest : List (HttpInterceptor ε T))
      (r r1 r2 : Response T) : i.onResponse r = .ok r1 →
      RespChain rest r1 r2 → RespChain (i :: rest) r r2

/-- Sequential error-hook chain in registration order over a fixed request:
`ErrChain req l e out` relates the incoming error `e` to the chain outcome,
where `out = .ok e2` means every hook ran, each receiving the previous hook's
returned error and the last one returning `e2`, and `out = .error t` means
some hook threw `t`, in which case the remaining hooks of the chain are not
run. -/
inductive ErrChain {ε T : Type} (req : Request) :
    List (HttpInterceptor ε T) → ε → Except ε ε → Prop where
  | nil (e : ε) : ErrChain req [] e (.ok e)
  | step (i : HttpInterceptor ε T) (rest : List (HttpInterceptor ε T))
      (e e2 : ε) (out : Except ε ε) : i.onError e req = .ok e2 →
      ErrChain req rest e2 out → ErrChain req (i :: rest) e out
  | halt (i : HttpInterceptor ε T) (rest : List (HttpInterceptor ε T))
      (e t : ε) : i.onError e req = .error t →
      ErrChain req (i :: rest) e (.error t)

/-! Concrete instances used to exercise the dispatch pipeline (error values
and payloads are natural numbers). -/

/-- A concrete request: correlation identifier `"u"`, created at time 0. -/
def req0 : Request := Request.make "u" 0 "base" "/e"

/-- A transport that always succeeds with payload 0, status 200 and no
header object. -/
def okTransport : AxiosRequestConfig → Except Nat (AxiosResponse Nat) :=
  fun _ => .ok { data := 0, status := 200, headers := none }

/-- A transport that always fails with error value 10. -/
def failTransport : AxiosRequestConfig → Except Nat (AxiosResponse Nat) :=
  fun _ => .error 10

/-- An interceptor that tags the request with header `a` and bumps the
response status by 1; its error hook is the identity. -/
def tagInterceptor1 : HttpInterceptor Nat Nat :=
  { onRequest := fun r => .ok (r.addHeader "a" "1"),
    onResponse := fun r => .ok { r with status := r.status + 1 },
    onError := fun e _ => .ok e }

/-- An interceptor that tags the request with header `b` and multiplies the
response status by 10; its error hook is the identity. -/
def tagInterceptor2 : HttpInterceptor Nat Nat :=
  { onRequest := fun r => .ok (r.addHeader "b" "2"),
    onResponse := fun r => .ok { r with status := r.status * 10 },
    onError := fun e _ => .ok e }

/-- An interceptor whose request hook throws error value 7 and whose error
hook would replace any error with 99. -/
def throwOnRequestInterceptor : HttpInterceptor Nat Nat :=
  { onRequest := fun _ => .error 7,
    onResponse := fun r => .ok r,
    onError := fun _ _ => .ok 99 }

/-- An interceptor whose error hook replaces the error `e` with `e + 1`. -/
def incrErrorInterceptor : HttpInterceptor Nat Nat :=
  { onRequest := fun r => .ok r,
    onResponse := fun r => .ok r,
    onError := fun e _ => .ok (e + 1) }

/-- An interceptor whose response hook rewrites the correlation identifier
to `"evil"`. -/
def evilResponseInterceptor : HttpInterceptor Nat Nat :=
  { onRequest := fun r => .ok r,
    onResponse := fun r => .ok { r with systemCorrelationId := "evil" },
    onError := fun e _ => .ok e }

/-- A concrete request whose body mapping is defined (holds one entry). -/
def reqWithBody : Request :=
  { req0 with body := some [("a", BodyVal.num 1)] }

/-! Helper lemmas. -/

/-- Each entry into the retry loop performs at most one operation call more
than the number of retries still allowed by the attempt counter. -/
theorem executeFrom_opCalls_le {ε α : Type} (p : RetryPolicy ε)
    (op : Nat → Except ε α) (attempt : Int) (k : Nat) :
    (executeFrom p op attempt k).opCalls ≤
      (p.maxAttempts - attempt).toNat + 1 := by
  rw [executeFrom]
  cases hop : op k with
  | ok a => simp
  | error err =>
    by_cases h1 : p.retryOn err = false
    · simp [h1]
    · by_cases h2 : p.maxAttempts ≤ attempt
      · simp [h1, h2]
      · simp [h1, h2]
        have := executeFrom_opCalls_le p op (attempt + 1) (k + 1)
        omega
termination_by (p.maxAttempts - attempt).toNat
decreasing_by omega

/-- Unfolding of `getKey` over a cons cell. -/
theorem getKey_cons {α : Type} (x : String × α) (m : List (String × α))
    (k : String) :
    getKey (x :: m) k = if x.1 == k then some x.2 else getKey m k := by
  rw [getKey, List.find?]
  cases hb : x.1 == k <;> simp [hb, getKey]

/-- Overwriting an existing key makes it map to the new value. -/
theorem getKey_map_self {α : Type} (k : String) (v : α) :
    ∀ m : List (String × α), m.any (fun p => p.1 == k) = true →
      getKey (m.map (fun p => if p.1 == k then (k, v) else p)) k = some v := by
  intro m
  induction m with
  | nil => intro h; simp at h
  | cons a m ih =>
    intro h
    rw [List.map_cons]
    cases hb : a.1 == k with
    | true =>
      rw [if_pos rfl, getKey_cons]
      simp
    | false =>
      rw [if_neg (by simp), getKey_cons, if_neg (by simp [hb])]
      exact ih (by simpa [List.any_cons, hb] using h)

/-- Overwriting a key leaves every other key's binding unchanged. -/
theorem getKey_map_other {α : Type} (k k2 : String) (v : α) (hne : k2 ≠ k) :
    ∀ m : List (String × α),
      getKey (m.map (fun p => if p.1 == k then (k, v) else p)) k2 =
        getKey m k2 := by
  intro m
  have hkk2 : (k == k2) = false := by
    simp only [beq_eq_false_iff_ne, ne_eq]
    exact fun hh => hne hh.symm
  induction m with
  | nil => rfl
  | cons a m ih =>
    rw [List.map_cons]
    cases hb : a.1 == k with
    | true =>
      have hak : a.1 = k := by simpa using hb
      have hak2 : (a.1 == k2) = false := by rw [hak]; exact hkk2
      rw [if_pos rfl, getKey_cons, getKey_cons]
      rw [if_neg (by simp [hkk2]), if_neg (by simp [hak2])]
      exact ih
    | false =>
      rw [if_neg (by simp), getKey_cons, getKey_cons, ih]

/-- Appending a fresh key makes it map to the new value. -/
theorem getKey_append_self {α : Type} (k : String) (v : α) :
    ∀ m : List (String × α), m.any (fun p => p.1 == k) = false →
      getKey (m ++ [(k, v)]) k = some v := by
  intro m
  induction m with
  | nil => intro h; simp [getKey_cons, getKey]
  | cons a m ih =>
    intro h
    simp only [List.any_cons, Bool.or_eq_false_iff] at h
    rw [List.cons_append, getKey_cons, if_neg (by simp [h.1])]
    exact ih h.2

/-- Appending a fresh key leaves every other key's binding unchanged. -/
theorem getKey_append_other {α : Type} (k k2 : String) (v : α)
    (hne : k2 ≠ k) :
    ∀ m : List (String × α), getKey (m ++ [(k, v)]) k2 = getKey m k2 := by
  intro m
  have hkk2 : (k == k2) = false := by
    simp only [beq_eq_false_iff_ne, ne_eq]
    exact fun hh => hne hh.symm
  induction m with
  | nil => rw [List.nil_append, getKey_cons, if_neg (by simp [hkk2])]
  | cons a m ih =>
    rw [List.cons_append, getKey_cons, getKey_cons, ih]

/-- After `setKey`, the written key maps to the written value. -/
theorem getKey_setKey_self {α : Type} (k : String) (v : α)
    (m : List (String × α)) : getKey (setKey m k v) k = some v := by
  rw [setKey]
  by_cases h : m.any (fun p => p.1 == k)
  · rw [if_pos h]; exact getKey_map_self k v m h
  · rw [if_neg h]
    have hfalse : m.any (fun p => p.1 == k) = false := by
      cases hb : m.any (fun p => p.1 == k)
      · rfl
      · exact absurd hb h
    exact getKey_append_self k v m hfalse

/-- After `setKey`, every other key's binding is unchanged. -/
theorem getKey_setKey_other {α : Type} (k k2 : String) (v : α) (hne : k2 ≠ k)
    (m : List (String × α)) : getKey (setKey m k v) k2 = getKey m k2 := by
  rw [setKey]
  by_cases h : m.any (fun p => p.1 == k)
  · rw [if_pos h]; exact getKey_map_other k k2 v hne m
  · rw [if_neg h]; exact getKey_append_other k k2 v hne m

/-- A successful run of the request-side loop is exactly a sequential
left-to-right hook chain. -/
theorem runOnRequest_chain {ε T : Type} (inters : List (HttpInterceptor ε T)) :
    ∀ req r2, runOnRequest inters req = .ok r2 → ReqChain inters req r2 := by
  induction inters with
  | nil =>
    intro req r2 h
    rw [runOnRequest] at h
    cases h
    exact .nil req
  | cons i rest ih =>
    intro req r2 h
    rw [runOnRequest] at h
    cases hi : i.onRequest req with
    | error e => rw [hi] at h; exact Except.noConfusion h
    | ok r1 => rw [hi] at h; exact .cons i rest req r1 r2 hi (ih r1 r2 h)

/-- A successful run of the response-side loop is exactly a sequential
left-to-right hook chain. -/
theorem runOnResponse_chain {ε T : Type}
    (inters : List (HttpInterceptor ε T)) :
    ∀ r r2, runOnResponse inters r = .ok r2 → RespChain inters r r2 := by
  induction inters with
  | nil =>
    intro r r2 h
    rw [runOnResponse] at h
    cases h
    exact .nil r
  | cons i rest ih =>
    intro r r2 h
    rw [runOnResponse] at h
    cases hi : i.onResponse r with
    | error e => rw [hi] at h; exact Except.noConfusion h
    | ok r1 => rw [hi] at h; exact .cons i rest r r1 r2 hi (ih r1 r2 h)

/-- The error-side loop realizes the sequential error-hook chain: every run
of `runOnError` is described by `ErrChain`. -/
theorem runOnError_chain {ε T : Type} (inters : List (HttpInterceptor ε T))
    (req : Request) : ∀ e, ErrChain req inters e (runOnError inters e req) := by
  induction inters with
  | nil => intro e; exact .nil e
  | cons i rest ih =>
    intro e
    rw [runOnError]
    cases hi : i.onError e req with
    | error t => exact .halt i rest e t hi
    | ok e2 => exact .step i rest e e2 _ hi (ih e2)

/-- When every response hook preserves the correlation identifier, so does
the whole response-side loop. -/
theorem runOnResponse_preserves_cid {ε T : Type}
    (inters : List (HttpInterceptor ε T))
    (hpres : ∀ i ∈ inters, ∀ r r2, i.onResponse r = .ok r2 →
      r2.systemCorrelationId = r.systemCorrelationId) :
    ∀ r r2, runOnResponse inters r = .ok r2 →
      r2.systemCorrelationId = r.systemCorrelationId := by
  induction inters with
  | nil =>
    intro r r2 h
    rw [runOnResponse] at h
    cases h
    rfl
  | cons i rest ih =>
    intro r r2 h
    rw [runOnResponse] at h
    cases hi : i.onResponse r with
    | error e => rw [hi] at h; exact Except.noConfusion h
    | ok r1 =>
      rw [hi] at h
      have h1 := hpres i (by simp) r r1 hi
      have h2 := ih (fun j hj => hpres j (by simp [hj])) r1 r2 h
      rw [h2, h1]

/-! Claim theorems about the retry executor and the default policy. -/

/-- C2: with `maxAttempts = 3`, an always-retryable policy and an operation
failing on every invocation, `RetryExecutor.execute` invokes the operation
exactly 3 times, calls `backoffMs` exactly twice with attempt numbers 1 and 2
(never after the final failed attempt), and rejects with the last error; and
in general, for any policy with positive `maxAttempts`, the executor performs
at most `maxAttempts` total invocations of the operation. -/
theorem retryExecutor_three_attempts {ε α : Type} (p : RetryPolicy ε)
    (op : Nat → Except ε α) (f : Nat → ε)
    (hm : p.maxAttempts = 3) (hr : ∀ e, p.retryOn e = true)
    (hop : ∀ k, op k = .error (f k)) :
    RetryExecutor.execute p op =
      { result := .error (f 2), opCalls := 3,
        retryOnArgs := [f 0, f 1, f 2], backoffArgs := [1, 2] } ∧
    ∀ (q : RetryPolicy ε) (op2 : Nat → Except ε α), 1 ≤ q.maxAttempts →
      (RetryExecutor.execute q op2).opCalls ≤ q.maxAttempts.toNat := by
  constructor
  · rw [RetryExecutor.execute, executeFrom, hop 0]
    simp [hr, hm]
    rw [executeFrom, hop 1]
    simp [hr, hm]
    rw [executeFrom, hop 2]
    simp [hr, hm]
  · intro q op2 hq
    have := executeFrom_opCalls_le q op2 1 0
    rw [RetryExecutor.execute]
    omega

/-- Witness for C2 at a concrete always-failing operation. -/
theorem retryExecutor_three_attempts_witness :
    RetryExecutor.execute (ε := Nat) (α := Nat)
      { maxAttempts := 3, retryOn := fun _ => true, backoffMs := fun _ => 0 }
      (fun k => .error k) =
      { result := .error 2, opCalls := 3, retryOnArgs := [0, 1, 2],
        backoffArgs := [1, 2] } :=
  (retryExecutor_three_attempts _ _ (fun k => k) rfl (fun _ => rfl)
    (fun _ => rfl)).1

/-- C6: a first invocation that succeeds returns its result with the policy
never consulted (no `retryOn` call, no `backoffMs` call); a first invocation
that fails with an error the policy refuses to retry propagates that error
after exactly one operation call, with `backoffMs` never called. -/
theorem retryExecutor_single_call {ε α : Type} (p : RetryPolicy ε)
    (op : Nat → Except ε α) :
    (∀ a, op 0 = .ok a → RetryExecutor.execute p op =
      { result := .ok a, opCalls := 1, retryOnArgs := [],
        backoffArgs := [] }) ∧
    (∀ e, op 0 = .error e → p.retryOn e = false →
      RetryExecutor.execute p op =
        { result := .error e, opCalls := 1, retryOnArgs := [e],
          backoffArgs := [] }) := by
  constructor
  · intro a h
    rw [RetryExecutor.execute, executeFrom, h]
  · intro e h hr
    rw [RetryExecutor.execute, executeFrom, h]
    simp [hr]

/-- Witness for C6: a succeeding operation and a non-retryable failure. -/
theorem retryExecutor_single_call_witness :
    RetryExecutor.execute (ε := Nat) (α := Nat)
      { maxAttempts := 3, retryOn := fun _ => true, backoffMs := fun _ => 1 }
      (fun _ => .ok 5) =
      { result := .ok 5, opCalls := 1, retryOnArgs := [],
        backoffArgs := [] } ∧
    RetryExecutor.execute (ε := Nat) (α := Nat)
      { maxAttempts := 3, retryOn := fun _ => false, backoffMs := fun _ => 1 }
      (fun _ => .error 7) =
      { result := .error 7, opCalls := 1, retryOnArgs := [7],
        backoffArgs := [] } :=
  ⟨(retryExecutor_single_call _ _).1 5 rfl,
   (retryExecutor_single_call _ _).2 7 rfl rfl⟩

/-- C9: when `maxAttempts` is not positive, the executor still invokes the
operation exactly once and, on a failure the policy would retry, propagates
the error without ever calling `backoffMs`, because the attempt counter
starts at 1 and the limit check `attempt >= maxAttempts` already holds. -/
theorem retryExecutor_nonpositive_max {ε α : Type} (p : RetryPolicy ε)
    (op : Nat → Except ε α) (e : ε) (h0 : p.maxAttempts ≤ 0)
    (h : op 0 = .error e) (hr : p.retryOn e = true) :
    RetryExecutor.execute p op =
      { result := .error e, opCalls := 1, retryOnArgs := [e],
        backoffArgs := [] } := by
  rw [RetryExecutor.execute, executeFrom, h]
  simp [hr]
  omega

/-- Witness for C9 with `maxAttempts = 0`. -/
theorem retryExecutor_nonpositive_max_witness :
    RetryExecutor.execute (ε := Nat) (α := Nat)
      { maxAttempts := 0, retryOn := fun _ => true, backoffMs := fun _ => 1 }
      (fun _ => .error 9) =
      { result := .error 9, opCalls := 1, retryOnArgs := [9],
        backoffArgs := [] } :=
  retryExecutor_nonpositive_max _ _ 9 (by norm_num) rfl rfl

/-- C5: `ExponentialBackoffPolicy.retryOn` returns true exactly for an error
whose `response.status` is 429, 500, 502, 503 or 504 or whose `code` is
`"ECONNABORTED"`; in particular it returns false for statuses 400, 401, 403
and 404 and for errors with no recognizable status or code. -/
theorem expBackoff_retryOn_allowlist :
    (∀ e : JsError, ExponentialBackoffPolicy.retryOn e = true ↔
      (e.responseStatus = some 429 ∨ e.responseStatus = some 500 ∨
       e.responseStatus = some 502 ∨ e.responseStatus = some 503 ∨
       e.responseStatus = some 504 ∨ e.code = some "ECONNABORTED")) ∧
    ExponentialBackoffPolicy.retryOn { responseStatus := some 400 } = false ∧
    ExponentialBackoffPolicy.retryOn { responseStatus := some 401 } = false ∧
    ExponentialBackoffPolicy.retryOn { responseStatus := some 403 } = false ∧
    ExponentialBackoffPolicy.retryOn { responseStatus := some 404 } = false ∧
    ExponentialBackoffPolicy.retryOn {} = false := by
  refine ⟨fun e => ?_, by decide, by decide, by decide, by decide, by decide⟩
  simp [ExponentialBackoffPolicy.retryOn, Bool.or_eq_true, beq_iff_eq]
  tauto

/-- C7: for every attempt number `n ≥ 1` and every random draw in `[0, 1)`,
`ExponentialBackoffPolicy.backoffMs` lies in `[2^n * 100, 2^n * 100 + 50)`;
in particular attempt 1 falls in `[200, 250)`, attempt 2 in `[400, 450)` and
attempt 3 in `[800, 850)`. -/
theorem expBackoff_backoffMs_range (n : Nat) (r : ℚ) (hn : 1 ≤ n)
    (h0 : 0 ≤ r) (h1 : r < 1) :
    ((2 : ℚ) ^ n * 100 ≤ ExponentialBackoffPolicy.backoffMs n r ∧
      ExponentialBackoffPolicy.backoffMs n r < (2 : ℚ) ^ n * 100 + 50) ∧
    (n = 1 → 200 ≤ ExponentialBackoffPolicy.backoffMs n r ∧
      ExponentialBackoffPolicy.backoffMs n r < 250) ∧
    (n = 2 → 400 ≤ ExponentialBackoffPolicy.backoffMs n r ∧
      ExponentialBackoffPolicy.backoffMs n r < 450) ∧
    (n = 3 → 800 ≤ ExponentialBackoffPolicy.backoffMs n r ∧
      ExponentialBackoffPolicy.backoffMs n r < 850) := by
  have hj0 : (0 : ℚ) ≤ r * 50 := by positivity
  have hj1 : r * 50 < 50 := by nlinarith
  rw [ExponentialBackoffPolicy.backoffMs]
  refine ⟨⟨by linarith, by linarith⟩, fun h => ?_, fun h => ?_, fun h => ?_⟩
  · subst h
    norm_num
    constructor <;> linarith
  · subst h
    norm_num
    constructor <;> linarith
  · subst h
    norm_num
    constructor <;> linarith

/-- C3: on every successful dispatch, the `onRequest` hooks are applied
strictly sequentially in registration order, each hook receiving the output
of the previous hook; the Response constructed from the transport result is
then passed through the `onResponse` hooks in the same registration order
(not reversed), the final hook's output being the Response returned to the
caller. -/
theorem dispatch_hook_order {ε T : Type} (inters : List (HttpInterceptor ε T))
    (transport : AxiosRequestConfig → Except ε (AxiosResponse T))
    (now : Nat) (req : Request) (resp : Response T)
    (h : HttpAdapter.dispatch inters transport now req = .ok resp) :
    ∃ processed ax, ReqChain inters req processed ∧
      transport (requestConfig processed now) = .ok ax ∧
      RespChain inters
        (Response.create ax.data ax.status ax.headers
          processed.systemCorrelationId now) resp := by
  rw [HttpAdapter.dispatch] at h
  cases hreq : runOnRequest inters req with
  | error e => simp only [hreq] at h; exact Except.noConfusion h
  | ok processed =>
    simp only [hreq] at h
    cases htry : tryPhase inters transport now processed with
    | error e =>
      simp only [htry] at h
      cases hoe : runOnError inters e (processed.setTimestamp now) with
      | error t => simp only [hoe] at h; exact Except.noConfusion h
      | ok p => simp only [hoe] at h; exact Except.noConfusion h
    | ok r =>
      simp only [htry, Except.ok.injEq] at h
      subst h
      simp only [tryPhase] at htry
      cases htr : transport (requestConfig processed now) with
      | error e => simp only [htr] at htry; exact Except.noConfusion htry
      | ok ax =>
        simp only [htr] at htry
        exact ⟨processed, ax, runOnRequest_chain inters req processed hreq,
          htr, runOnResponse_chain inters _ _ htry⟩

/-- Witness for C3: two tagging interceptors over a successful transport;
the returned status 2010 shows the response hooks ran first-to-last. -/
theorem dispatch_hook_order_witness :
    ∃ processed ax,
      ReqChain [tagInterceptor1, tagInterceptor2] req0 processed ∧
      okTransport (requestConfig processed 5) = .ok ax ∧
      RespChain [tagInterceptor1, tagInterceptor2]
        (Response.create ax.data ax.status ax.headers
          processed.systemCorrelationId 5)
        { data := 0, status := 2010, headers := none,
          systemCorrelationId := "u", timestamp := 5 } :=
  dispatch_hook_order [tagInterceptor1, tagInterceptor2] okTransport 5 req0
    _ rfl

/-- C1 (amended): once the request-side hook phase has completed, any error
raised inside the `try` block (URL building, timestamping, transport call or
response processing) is passed with the current request through every
interceptor's `onError` hook sequentially in registration order, each hook's
returned value replacing the current error; a throwing hook terminates the
chain with its thrown value; the dispatch attempt always terminates in
failure with the chain's outcome, never in a successful Response.  (Errors
thrown by an `onRequest` hook itself propagate directly without entering the
`onError` chain — see the counterexample.) -/
theorem dispatch_error_chain {ε T : Type} (inters : List (HttpInterceptor ε T))
    (transport : AxiosRequestConfig → Except ε (AxiosResponse T))
    (now : Nat) (req processed : Request) (e0 : ε)
    (hreq : runOnRequest inters req = .ok processed)
    (htry : tryPhase inters transport now processed = .error e0) :
    ∃ out, ErrChain (processed.setTimestamp now) inters e0 out ∧
      ((∃ efinal, out = .ok efinal ∧
        HttpAdapter.dispatch inters transport now req = .error efinal) ∨
       (∃ t, out = .error t ∧
        HttpAdapter.dispatch inters transport now req = .error t)) ∧
      ∀ resp, HttpAdapter.dispatch inters transport now req ≠ .ok resp := by
  have hd : HttpAdapter.dispatch inters transport now req =
      match runOnError inters e0 (processed.setTimestamp now) with
      | .ok propagatedError => .error propagatedError
      | .error thrown => .error thrown := by
    rw [HttpAdapter.dispatch]
    simp only [hreq, htry]
  refine ⟨runOnError inters e0 (processed.setTimestamp now),
    runOnError_chain inters (processed.setTimestamp now) e0, ?_, ?_⟩
  · cases hoe : runOnError inters e0 (processed.setTimestamp now) with
    | ok p => exact Or.inl ⟨p, rfl, by rw [hd, hoe]⟩
    | error t => exact Or.inr ⟨t, rfl, by rw [hd, hoe]⟩
  · intro resp hok
    rw [hd] at hok
    cases hoe : runOnError inters e0 (processed.setTimestamp now) with
    | ok p => rw [hoe] at hok; exact Except.noConfusion hok
    | error t => rw [hoe] at hok; exact Except.noConfusion hok

/-- Witness for C1: a failing transport under one error-rewriting
interceptor; the chain replaces error 10 and the dispatch fails with the
replaced error. -/
theorem dispatch_error_chain_witness :
    ∃ out, ErrChain (req0.setTimestamp 5) [incrErrorInterceptor] 10 out ∧
      ((∃ efinal, out = .ok efinal ∧
        HttpAdapter.dispatch [incrErrorInterceptor] failTransport 5 req0 =
          .error efinal) ∨
       (∃ t, out = .error t ∧
        HttpAdapter.dispatch [incrErrorInterceptor] failTransport 5 req0 =
          .error t)) ∧
      ∀ resp, HttpAdapter.dispatch [incrErrorInterceptor] failTransport 5 req0
        ≠ .ok resp :=
  dispatch_error_chain [incrErrorInterceptor] failTransport 5 req0 req0 10
    rfl rfl

/-- Counterexample for C1 as stated: an error raised during the
request-interceptor phase (step a) does not pass through the `onError`
chain.  The hook throws 7 and the interceptor's `onError` would replace any
error with 99, yet dispatch fails with 7, not 99. -/
theorem dispatch_request_phase_error_counterexample :
    HttpAdapter.dispatch [throwOnRequestInterceptor] okTransport 5 req0 =
      .error 7 ∧
    HttpAdapter.dispatch [throwOnRequestInterceptor] okTransport 5 req0 ≠
      .error 99 :=
  ⟨rfl, by decide⟩

/-- C4 (amended): the Response constructed by dispatch carries the
correlation identifier of the current (possibly interceptor-replaced)
request handed to the transport; whenever every `onResponse` hook preserves
the correlation identifier, the returned Response's identifier therefore
equals that of the processed request.  The constructor sets the identifier
to the freshly generated UUID and `setTimestamp` leaves it unchanged. -/
theorem dispatch_correlation {ε T : Type} (inters : List (HttpInterceptor ε T))
    (transport : AxiosRequestConfig → Except ε (AxiosResponse T))
    (now : Nat) (req processed : Request) (resp : Response T)
    (hpres : ∀ i ∈ inters, ∀ (r r2 : Response T), i.onResponse r = .ok r2 →
      r2.systemCorrelationId = r.systemCorrelationId)
    (hreq : runOnRequest inters req = .ok processed)
    (h : HttpAdapter.dispatch inters transport now req = .ok resp) :
    resp.systemCorrelationId = processed.systemCorrelationId ∧
    (∀ (u : String) (n : Nat) (b ep : String),
      (Request.make u n b ep).systemCorrelationId = u) ∧
    (∀ (r : Request) (t : Nat),
      (r.setTimestamp t).systemCorrelationId = r.systemCorrelationId) := by
  refine ⟨?_, fun u n b ep => rfl, fun r t => rfl⟩
  rw [HttpAdapter.dispatch] at h
  simp only [hreq] at h
  cases htry : tryPhase inters transport now processed with
  | error e =>
    simp only [htry] at h
    cases hoe : runOnError inters e (processed.setTimestamp now) with
    | error t => simp only [hoe] at h; exact Except.noConfusion h
    | ok p => simp only [hoe] at h; exact Except.noConfusion h
  | ok r =>
    simp only [htry, Except.ok.injEq] at h
    subst h
    simp only [tryPhase] at htry
    cases htr : transport (requestConfig processed now) with
    | error e => simp only [htr] at htry; exact Except.noConfusion htry
    | ok ax =>
      simp only [htr] at htry
      exact runOnResponse_preserves_cid inters hpres _ r htry

/-- Witness for C4: a status-bumping (identifier-preserving) interceptor;
the returned Response keeps the processed request's identifier `"u"`. -/
theorem dispatch_correlation_witness :
    (({ data := 0, status := 201, headers := none,
        systemCorrelationId := "u", timestamp := 5 } :
          Response Nat).systemCorrelationId =
      (req0.addHeader "a" "1").systemCorrelationId) ∧
    (∀ (u : String) (n : Nat) (b ep : String),
      (Request.make u n b ep).systemCorrelationId = u) ∧
    (∀ (r : Request) (t : Nat),
      (r.setTimestamp t).systemCorrelationId = r.systemCorrelationId) :=
  dispatch_correlation [tagInterceptor1] okTransport 5 req0
    (req0.addHeader "a" "1")
    { data := 0, status := 201, headers := none,
      systemCorrelationId := "u", timestamp := 5 }
    (by
      intro i hi r r2 hresp
      simp only [List.mem_singleton] at hi
      subst hi
      simp only [tagInterceptor1, Except.ok.injEq] at hresp
      subst hresp
      rfl)
    rfl rfl

/-- Counterexample for C4 as stated: an `onResponse` hook may replace the
correlation identifier, so the returned Response's identifier (`"evil"`)
differs from that of the request handed to the transport (`"u"`). -/
theorem dispatch_correlation_counterexample :
    HttpAdapter.dispatch [evilResponseInterceptor] okTransport 5 req0 =
      .ok { data := 0, status := 200, headers := none,
            systemCorrelationId := "evil", timestamp := 5 } ∧
    runOnRequest [evilResponseInterceptor] req0 = .ok req0 ∧
    ("evil" : String) ≠ "u" :=
  ⟨rfl, rfl, by decide⟩

/-- C8: the Response constructed on transport success stores exactly the
transport's header value — the explicit absent-marker `none` when the
transport supplied no header mapping, and the supplied mapping unchanged
otherwise — `none` being distinguishable from the empty mapping `some []`;
with no interceptors registered this constructed Response is the returned
one. -/
theorem dispatch_absent_headers {ε T : Type}
    (inters : List (HttpInterceptor ε T))
    (transport : AxiosRequestConfig → Except ε (AxiosResponse T))
    (now : Nat) (req processed : Request) (ax : AxiosResponse T)
    ( _hreq : runOnRequest inters req = .ok processed)
    (htr : transport (requestConfig processed now) = .ok ax) :
    tryPhase inters transport now processed =
      runOnResponse inters
        (Response.create ax.data ax.status ax.headers
          processed.systemCorrelationId now) ∧
    (Response.create ax.data ax.status ax.headers
      processed.systemCorrelationId now).headers = ax.headers ∧
    (none : Option (List (String × String))) ≠ some [] ∧
    ∀ (transport2 : AxiosRequestConfig → Except ε (AxiosResponse T))
      (req2 : Request) (now2 : Nat) (ax2 : AxiosResponse T),
      transport2 (requestConfig req2 now2) = .ok ax2 →
      HttpAdapter.dispatch [] transport2 now2 req2 =
        .ok (Response.create ax2.data ax2.status ax2.headers
          req2.systemCorrelationId now2) := by
  refine ⟨?_, rfl, by simp, ?_⟩
  · simp only [tryPhase, htr]
    rfl
  · intro transport2 req2 now2 ax2 h2
    rw [HttpAdapter.dispatch]
    simp only [runOnRequest]
    simp only [tryPhase, h2]
    simp only [runOnResponse]
    rfl

/-- Witness for C8: a transport returning no header object yields a
constructed Response with the `none` marker. -/
theorem dispatch_absent_headers_witness :
    tryPhase [] okTransport 5 req0 =
      runOnResponse []
        (Response.create (0 : Nat) 200 none req0.systemCorrelationId 5) ∧
    (Response.create (0 : Nat) 200 none req0.systemCorrelationId 5).headers
      = none ∧
    (none : Option (List (String × String))) ≠ some [] ∧
    ∀ (transport2 : AxiosRequestConfig → Except Nat (AxiosResponse Nat))
      (req2 : Request) (now2 : Nat) (ax2 : AxiosResponse Nat),
      transport2 (requestConfig req2 now2) = .ok ax2 →
      HttpAdapter.dispatch [] transport2 now2 req2 =
        .ok (Response.create ax2.data ax2.status ax2.headers
          req2.systemCorrelationId now2) :=
  dispatch_absent_headers [] okTransport 5 req0 req0
    { data := 0, status := 200, headers := none } rfl rfl

/-- C10: `Request.addParam` fails with `"Body is not defined"` exactly when
the body is absent; otherwise it updates the body mapping (adding or
overwriting the binding of the given key, all other keys untouched) and
leaves every other field of the Request unchanged. -/
theorem addParam_spec (r : Request) (k : String) (v : BodyVal) :
    (r.body = none → r.addParam k v = .error "Body is not defined") ∧
    (r.addParam k v = .error "Body is not defined" → r.body = none) ∧
    (∀ b, r.body = some b →
      r.addParam k v = .ok { r with body := some (setKey b k v) } ∧
      getKey (setKey b k v) k = some v ∧
      (∀ k2, k2 ≠ k → getKey (setKey b k v) k2 = getKey b k2) ∧
      ∀ r2, r.addParam k v = .ok r2 →
        r2.baseUrl = r.baseUrl ∧ r2.endpoint = r.endpoint ∧
        r2.method = r.method ∧ r2.headers = r.headers ∧
        r2.queryParams = r.queryParams ∧ r2.options = r.options ∧
        r2.systemCorrelationId = r.systemCorrelationId ∧
        r2.timestamp = r.timestamp) := by
  refine ⟨?_, ?_, ?_⟩
  · intro h
    rw [Request.addParam, h]
  · intro h
    cases hb : r.body with
    | none => rfl
    | some b =>
      rw [Request.addParam] at h
      simp only [hb] at h
      exact Except.noConfusion h
  · intro b hb
    have hok : r.addParam k v = .ok { r with body := some (setKey b k v) } := by
      rw [Request.addParam]
      simp only [hb]
    refine ⟨hok, getKey_setKey_self k v b,
      fun k2 hne => getKey_setKey_other k k2 v hne b, ?_⟩
    intro r2 h2
    rw [hok] at h2
    simp only [Except.ok.injEq] at h2
    subst h2
    exact ⟨rfl, rfl, rfl, rfl, rfl, rfl, rfl, rfl⟩

/-- Witness for C10: a request with no body rejects `addParam`, one with a
body accepts it and the written key maps to the new value. -/
theorem addParam_spec_witness :
    req0.addParam "k" (.str "v") = .error "Body is not defined" ∧
    reqWithBody.addParam "a" (.num 2) =
      .ok { reqWithBody with
            body := some (setKey [("a", BodyVal.num 1)] "a" (.num 2)) } ∧
    getKey (setKey [("a", BodyVal.num 1)] "a" (.num 2)) "a" =
      some (.num 2) :=
  ⟨(addParam_spec req0 "k" (.str "v")).1 rfl,
   ((addParam_spec reqWithBody "a" (.num 2)).2.2 _ rfl).1,
   ((addParam_spec reqWithBody "a" (.num 2)).2.2 _ rfl).2.1⟩

/-- Witness for C7 at attempt 1 with a zero random draw. -/
theorem expBackoff_backoffMs_range_witness :
    (((2 : ℚ) ^ (1 : Nat) * 100 ≤ ExponentialBackoffPolicy.backoffMs 1 0 ∧
      ExponentialBackoffPolicy.backoffMs 1 0 < (2 : ℚ) ^ (1 : Nat) * 100 + 50) ∧
    ((1 : Nat) = 1 → 200 ≤ ExponentialBackoffPolicy.backoffMs 1 0 ∧
      ExponentialBackoffPolicy.backoffMs 1 0 < 250) ∧
    ((1 : Nat) = 2 → 400 ≤ ExponentialBackoffPolicy.backoffMs 1 0 ∧
      ExponentialBackoffPolicy.backoffMs 1 0 < 450) ∧
    ((1 : Nat) = 3 → 800 ≤ ExponentialBackoffPolicy.backoffMs 1 0 ∧
      ExponentialBackoffPolicy.backoffMs 1 0 < 850)) :=
  expBackoff_backoffMs_range 1 0 (by norm_num) (by norm_num) (by norm_num)

end HA
